import Mathlib

/-!
Verification development for the event-driven backtesting framework in
src/src/examples/backtest_framework.py.

Shallow embedding conventions:
- Timestamps are natural numbers counting UTC minutes since an epoch
  (pandas Timestamps are instants; only ordering, subtraction, the UTC
  hour, and whole elapsed days are ever used by the code).
- Prices, volatility readings, equity and r-multiples are rationals
  (the Python code computes with floats over exact formulas).
- A pandas timedelta of h hours is 60 * h minutes; Timedelta.days of a
  nonnegative span of m minutes is m / 1440 (floor division).
- DataFrames of bars / signals / context snapshots are Lists kept in
  frame order; boolean-mask row selection is List.filter, iloc[0] on a
  mask of the form index > t is List.find?, and iloc[-1] on a mask of
  the form index <= t is getLast? of the filtered list.
- The risk calculator and the optional confirmation oracle are passed
  to the engine as functions, mirroring the abstract base classes.
-/

/-- One M1 OHLC bar (the Volume column is never read by the engine). -/
structure PriceBar where
  time : ℕ
  open_price : ℚ
  high : ℚ
  low : ℚ
  close : ℚ
  deriving DecidableEq, Repr

/-- One signal event: a timestamp and a direction string. Extra columns
are only forwarded opaquely to the confirmation oracle and are not
modelled. -/
structure SignalEvent where
  time : ℕ
  direction : String
  deriving DecidableEq, Repr

/-- One context snapshot. The engine only ever reads the optional
numeric field called vol (context['garch'].get('vol', 30.0)); a record
without that key is a snapshot with vol = none. -/
structure ContextSnapshot where
  time : ℕ
  vol : Option ℚ
  deriving DecidableEq, Repr

/-- The context_data argument of run_backtest: named snapshot series. -/
abbrev ContextData := List (String × List ContextSnapshot)

/-- The Trade dataclass of the source. -/
structure Trade where
  signal_time : ℕ
  entry_time : ℕ
  session : String
  direction : String
  entry_price : ℚ
  sl_price : ℚ
  tp_price : ℚ
  exit_type : String
  exit_time : ℕ
  exit_price : ℚ
  pnl : ℚ
  r_multiple : ℚ
  equity : ℚ
  garch_vol : ℚ
  deriving DecidableEq, Repr

/-- The filter_stats dictionary initialised in run_backtest. -/
structure FilterStats where
  total_signals : ℕ
  cooldown_blocked : ℕ
  session_blocked : ℕ
  no_entry_bar : ℕ
  no_context : ℕ
  not_confirmed : ℕ
  trades_executed : ℕ
  deriving DecidableEq, Repr

/-- The mutable state of one run of BacktestEngine.run_backtest:
the local variables equity and last_trade_time, and the attributes
trades, equity_curve and filter_stats. -/
structure EngineState where
  equity : ℚ
  last_trade_time : Option ℕ
  trades : List Trade
  equity_curve : List (ℕ × ℚ)
  filter_stats : FilterStats
  deriving DecidableEq, Repr

/-- BacktestConfig. start_date and end_date are the parsed UTC instants
of the configured date strings; cooldown_hours is an integer as in the
dataclass (Python allows it to be negative). -/
structure BacktestConfig where
  start_date : ℕ
  end_date : ℕ
  initial_capital : ℚ
  risk_per_trade : ℚ
  cooldown_hours : ℤ
  allowed_sessions : List String
  deriving DecidableEq, Repr

/-- The tuple (exit_type, exit_time, exit_price, r_multiple) returned by
BacktestEngine._simulate_trade. -/
structure TradeResult where
  exit_type : String
  exit_time : ℕ
  exit_price : ℚ
  r_multiple : ℚ
  deriving DecidableEq, Repr

/-- The risk_calculator dependency: calculate_stops(entry_price,
direction, garch_vol) returning (sl_price, tp_price). -/
abbrev RiskCalcFn := ℚ → String → ℚ → ℚ × ℚ

/-- The optional confirmation oracle: confirm_signal(signal, context,
price). The fused context is the per-source nearest snapshot map. -/
abbrev ConfirmFn := SignalEvent → List (String × Option ContextSnapshot) → ℚ → Bool

/-- str.upper(): uppercase every character. This is the data-level form
of String.map Char.toUpper, written over the character list so that the
kernel can evaluate it. -/
def str_upper (s : String) : String := ⟨s.data.map Char.toUpper⟩

/-- direction.upper() in ["LONG", "BUY"], shared by the risk calculator
and the trade simulator. -/
def is_long_direction (direction : String) : Bool :=
  str_upper direction == "LONG" || str_upper direction == "BUY"

/-- GARCHRegimeRiskCalculator constructor parameters. -/
structure GARCHRegimeRiskCalculator where
  low_vol_threshold : ℚ := 25
  high_vol_threshold : ℚ := 35
  sl_low : ℚ := 200
  sl_med : ℚ := 250
  sl_high : ℚ := 350
  rr_ratio : ℚ := 2
  deriving DecidableEq, Repr

/-- GARCHRegimeRiskCalculator.get_volatility_regime. -/
def get_volatility_regime (c : GARCHRegimeRiskCalculator) (garch_vol : ℚ) : String :=
  if garch_vol < c.low_vol_threshold then "LOW"
  else if garch_vol < c.high_vol_threshold then "MEDIUM"
  else "HIGH"

/-- The sl_distance selection of calculate_stops. -/
def sl_distance_of (c : GARCHRegimeRiskCalculator) (garch_vol : ℚ) : ℚ :=
  let regime := get_volatility_regime c garch_vol
  if regime = "LOW" then c.sl_low
  else if regime = "MEDIUM" then c.sl_med
  else c.sl_high

/-- The tp_distance of calculate_stops: sl_distance * rr_ratio. -/
def tp_distance_of (c : GARCHRegimeRiskCalculator) (garch_vol : ℚ) : ℚ :=
  sl_distance_of c garch_vol * c.rr_ratio

/-- GARCHRegimeRiskCalculator.calculate_stops. -/
def calculate_stops (c : GARCHRegimeRiskCalculator)
    (entry_price : ℚ) (direction : String) (garch_vol : ℚ) : ℚ × ℚ :=
  let sl_distance := sl_distance_of c garch_vol
  let tp_distance := tp_distance_of c garch_vol
  if is_long_direction direction then
    (entry_price - sl_distance, entry_price + tp_distance)
  else
    (entry_price + sl_distance, entry_price - tp_distance)

/-- DataLoader.get_nearest_context: last record at or before timestamp,
none when the series is empty or has no such record. -/
def get_nearest_context (df : List ContextSnapshot) (timestamp : ℕ) :
    Option ContextSnapshot :=
  (df.filter (fun s => decide (s.time ≤ timestamp))).getLast?

/-- The loop in run_backtest that builds the per-signal context dict
from every configured context source. -/
def fuseContext (context_data : ContextData) (timestamp : ℕ) :
    List (String × Option ContextSnapshot) :=
  context_data.map (fun p => (p.1, get_nearest_context p.2 timestamp))

/-- The gate condition of step 4: 'garch' not in context or
context['garch'] is None, flattened to the garch snapshot if present. -/
def garchContext (context : List (String × Option ContextSnapshot)) :
    Option ContextSnapshot :=
  (context.lookup "garch").join

/-- BacktestEngine.get_session, on the UTC hour. -/
def get_session_hour (hour : ℕ) : String :=
  if 0 ≤ hour ∧ hour < 8 then "Asian"
  else if 8 ≤ hour ∧ hour < 13 then "London"
  else if 13 ≤ hour ∧ hour < 22 then "New_York"
  else "Off_Hours"

/-- BacktestEngine.get_session on a timestamp (minutes since epoch). -/
def get_session (timestamp : ℕ) : String :=
  get_session_hour (timestamp / 60 % 24)

/-- Gate 1: last_trade_time and (signal_time - last_trade_time) <
cooldown_delta, with cooldown_delta = timedelta(hours=cooldown_hours). -/
def cooldownHit (cfg : BacktestConfig) (last_trade_time : Option ℕ)
    (signal_time : ℕ) : Bool :=
  match last_trade_time with
  | none => false
  | some lt => decide ((signal_time : ℤ) - (lt : ℤ) < 60 * cfg.cooldown_hours)

/-- Gate 5: the oracle, when attached, rejects the signal. -/
def confirmRejects (confirmation : Option ConfirmFn) (sig : SignalEvent)
    (context : List (String × Option ContextSnapshot)) (price : ℚ) : Bool :=
  match confirmation with
  | none => false
  | some f => !(f sig context price)

/-- One bar of the scan in _simulate_trade: evaluate sl_hit / tp_hit
and apply the same-bar tie-break (stop resolves first). -/
def barOutcome (is_long : Bool) (entry_price sl_price tp_price : ℚ)
    (bar : PriceBar) : Option TradeResult :=
  let sl_hit := if is_long then decide (bar.low ≤ sl_price)
    else decide (sl_price ≤ bar.high)
  let tp_hit := if is_long then decide (tp_price ≤ bar.high)
    else decide (bar.low ≤ tp_price)
  if sl_hit && tp_hit then
    some ⟨"SL", bar.time, sl_price, -1⟩
  else if sl_hit then
    some ⟨"SL", bar.time, sl_price, -1⟩
  else if tp_hit then
    some ⟨"TP", bar.time, tp_price,
      |tp_price - entry_price| / |sl_price - entry_price|⟩
  else
    none

/-- The for-loop over future bars in _simulate_trade: first bar outcome,
none when no bar resolves. -/
def scanBars (is_long : Bool) (entry_price sl_price tp_price : ℚ) :
    List PriceBar → Option TradeResult
  | [] => none
  | bar :: rest =>
    match barOutcome is_long entry_price sl_price tp_price bar with
    | some r => some r
    | none => scanBars is_long entry_price sl_price tp_price rest

/-- BacktestEngine._simulate_trade. -/
def simulate_trade (price_data : List PriceBar) (entry_time : ℕ)
    (entry_price : ℚ) (direction : String) (sl_price tp_price : ℚ)
    (max_bars : ℕ := 10080) : Option TradeResult :=
  let future_bars :=
    (price_data.filter (fun b => decide (entry_time < b.time))).take max_bars
  scanBars (is_long_direction direction) entry_price sl_price tp_price future_bars

/-- The body of the per-signal loop in BacktestEngine.run_backtest:
increment total_signals, then apply the six gates in source order. -/
def processSignal (cfg : BacktestConfig) (rc : RiskCalcFn)
    (confirmation : Option ConfirmFn) (price_data : List PriceBar)
    (context_data : ContextData) (st : EngineState) (sig : SignalEvent) :
    EngineState :=
  let st1 := { st with filter_stats :=
    { st.filter_stats with total_signals := st.filter_stats.total_signals + 1 } }
  if cooldownHit cfg st1.last_trade_time sig.time then
    { st1 with filter_stats :=
      { st1.filter_stats with cooldown_blocked := st1.filter_stats.cooldown_blocked + 1 } }
  else
    let session := get_session sig.time
    if session ∉ cfg.allowed_sessions then
      { st1 with filter_stats :=
        { st1.filter_stats with session_blocked := st1.filter_stats.session_blocked + 1 } }
    else
      match price_data.find? (fun b => decide (sig.time < b.time)) with
      | none =>
        { st1 with filter_stats :=
          { st1.filter_stats with no_entry_bar := st1.filter_stats.no_entry_bar + 1 } }
      | some entry_bar =>
        let entry_price := entry_bar.open_price
        let entry_time := entry_bar.time
        let context := fuseContext context_data sig.time
        match garchContext context with
        | none =>
          { st1 with filter_stats :=
            { st1.filter_stats with no_context := st1.filter_stats.no_context + 1 } }
        | some garch_snap =>
          let garch_vol := garch_snap.vol.getD 30
          if confirmRejects confirmation sig context entry_price then
            { st1 with filter_stats :=
              { st1.filter_stats with not_confirmed := st1.filter_stats.not_confirmed + 1 } }
          else
            let sl_price := (rc entry_price sig.direction garch_vol).1
            let tp_price := (rc entry_price sig.direction garch_vol).2
            match simulate_trade price_data entry_time entry_price
                sig.direction sl_price tp_price 10080 with
            | none => st1
            | some res =>
              let pnl := cfg.risk_per_trade * res.r_multiple
              let equity := st1.equity + pnl
              let trade : Trade := {
                signal_time := sig.time
                entry_time := entry_time
                session := session
                direction := sig.direction
                entry_price := entry_price
                sl_price := sl_price
                tp_price := tp_price
                exit_type := res.exit_type
                exit_time := res.exit_time
                exit_price := res.exit_price
                pnl := pnl
                r_multiple := res.r_multiple
                equity := equity
                garch_vol := garch_vol }
              { st1 with
                equity := equity
                trades := st1.trades ++ [trade]
                equity_curve := st1.equity_curve ++ [(sig.time, equity)]
                last_trade_time := some sig.time
                filter_stats :=
                  { st1.filter_stats with
                    trades_executed := st1.filter_stats.trades_executed + 1 } }

/-- The state initialisation at the top of run_backtest. -/
def initState (cfg : BacktestConfig) : EngineState where
  equity := cfg.initial_capital
  last_trade_time := none
  trades := []
  equity_curve := [(cfg.start_date, cfg.initial_capital)]
  filter_stats := ⟨0, 0, 0, 0, 0, 0, 0⟩

/-- The date-range filter applied to the signal frame before the loop. -/
def filteredSignals (cfg : BacktestConfig) (signals : List SignalEvent) :
    List SignalEvent :=
  signals.filter (fun s =>
    decide (cfg.start_date ≤ s.time) && decide (s.time ≤ cfg.end_date))

/-- BacktestEngine.run_backtest: initialise, filter the signals to the
date range, and fold the per-signal loop body. The returned EngineState
carries the three returned values (trades, equity_curve, filter_stats). -/
def run_backtest (cfg : BacktestConfig) (rc : RiskCalcFn)
    (confirmation : Option ConfirmFn) (price_data : List PriceBar)
    (context_data : ContextData) (signals : List SignalEvent) : EngineState :=
  (filteredSignals cfg signals).foldl
    (processSignal cfg rc confirmation price_data context_data)
    (initState cfg)

/-- Audit observer for the unresolved-simulation case (spec section 4.3:
the no-outcome case has no dedicated counter but must be tracked for
auditability): the signal passes gates 1 to 5 from state st and the
simulation yields no outcome. Mirrors the gate chain of processSignal. -/
def isUnresolvedStep (cfg : BacktestConfig) (rc : RiskCalcFn)
    (confirmation : Option ConfirmFn) (price_data : List PriceBar)
    (context_data : ContextData) (st : EngineState) (sig : SignalEvent) : Bool :=
  if cooldownHit cfg st.last_trade_time sig.time then false
  else if get_session sig.time ∉ cfg.allowed_sessions then false
  else
    match price_data.find? (fun b => decide (sig.time < b.time)) with
    | none => false
    | some entry_bar =>
      match garchContext (fuseContext context_data sig.time) with
      | none => false
      | some garch_snap =>
        if confirmRejects confirmation sig (fuseContext context_data sig.time)
            entry_bar.open_price then false
        else
          let garch_vol := garch_snap.vol.getD 30
          let sl_price := (rc entry_bar.open_price sig.direction garch_vol).1
          let tp_price := (rc entry_bar.open_price sig.direction garch_vol).2
          (simulate_trade price_data entry_bar.time entry_bar.open_price
            sig.direction sl_price tp_price 10080).isNone

/-- Number of signals of the list whose simulation yields no outcome,
threading the same state evolution as the run itself. -/
def countUnresolved (cfg : BacktestConfig) (rc : RiskCalcFn)
    (confirmation : Option ConfirmFn) (price_data : List PriceBar)
    (context_data : ContextData) : EngineState → List SignalEvent → ℕ
  | _, [] => 0
  | st, sig :: rest =>
    (if isUnresolvedStep cfg rc confirmation price_data context_data st sig
      then 1 else 0) +
    countUnresolved cfg rc confirmation price_data context_data
      (processSignal cfg rc confirmation price_data context_data st sig) rest

/-- The metrics dictionary returned by
PerformanceAnalytics.calculate_metrics (monthly_r, a reporting-only
string-keyed grouping, and the annualized sharpe_ratio, which involves a
square root and is embedded separately as sharpe_ratio below, are the
only entries not carried here). profit_factor is none for the float
value inf reached when gross_loss is zero. -/
structure Metrics where
  total_trades : ℕ
  total_r : ℚ
  win_rate : ℚ
  profit_factor : Option ℚ
  max_drawdown : ℚ
  max_drawdown_pct : ℚ
  avg_r_per_trade : ℚ
  expectancy : ℚ
  avg_win : ℚ
  avg_loss : ℚ
  final_equity : ℚ
  deriving DecidableEq, Repr

/-- PerformanceAnalytics.calculate_metrics (the early return {} on an
empty trade list becomes none). -/
def calculate_metrics (trades : List Trade) (initial_capital : ℚ) :
    Option Metrics :=
  if trades = [] then none
  else
    let r_multiples := trades.map (·.r_multiple)
    let equity_values := trades.map (·.equity)
    let total_r := r_multiples.sum
    let wins := r_multiples.countP (fun r => decide (0 < r))
    let losses := r_multiples.length - wins
    let win_rate := if r_multiples = [] then 0
      else (wins : ℚ) / (r_multiples.length : ℚ)
    let dd := equity_values.foldl
      (fun (acc : ℚ × ℚ × ℚ) equity =>
        let peak := if acc.1 < equity then equity else acc.1
        let drawdown := peak - equity
        let drawdown_pct := if 0 < peak then drawdown / peak else 0
        (peak, max acc.2.1 drawdown, max acc.2.2 drawdown_pct))
      (initial_capital, 0, 0)
    let gross_profit := (r_multiples.filter (fun r => decide (0 < r))).sum
    let gross_loss := |(r_multiples.filter (fun r => decide (r < 0))).sum|
    let profit_factor := if 0 < gross_loss then some (gross_profit / gross_loss)
      else none
    let avg_win := if 0 < wins then gross_profit / (wins : ℚ) else 0
    let avg_loss := if 0 < losses then gross_loss / (losses : ℚ) else 0
    let expectancy := win_rate * avg_win - (1 - win_rate) * avg_loss
    some {
      total_trades := trades.length
      total_r := total_r
      win_rate := win_rate
      profit_factor := profit_factor
      max_drawdown := dd.2.1
      max_drawdown_pct := dd.2.2 * 100
      avg_r_per_trade := total_r / (trades.length : ℚ)
      expectancy := expectancy
      avg_win := avg_win
      avg_loss := avg_loss
      final_equity := (equity_values.getLast?).getD initial_capital }

/-- np.mean of a list of rationals. -/
def mean_r_of (rs : List ℚ) : ℚ := rs.sum / (rs.length : ℚ)

/-- np.std(rs, ddof=1) squared: the sample variance with divisor n - 1. -/
def sample_variance (rs : List ℚ) : ℚ :=
  ((rs.map (fun x => (x - mean_r_of rs) ^ 2)).sum) / ((rs.length : ℚ) - 1)

/-- The elapsed whole days between the first and the last trade signal,
(trades[-1].signal_time - trades[0].signal_time).days, for signal times
in ascending order. -/
def elapsed_days (trades : List Trade) : ℕ :=
  (((trades.getLast?.map (·.signal_time)).getD 0) -
    ((trades.head?.map (·.signal_time)).getD 0)) / 1440

/-- The sharpe_ratio entry of the calculate_metrics dictionary:
mean over sample standard deviation of the r-multiples, annualized by
the square root of len(trades) / trading_days * 252 where trading_days
is (last - first).days or 1; zero with fewer than two trades or zero
standard deviation. -/
noncomputable def sharpe_ratio (trades : List Trade) : ℝ :=
  let r_multiples := trades.map (·.r_multiple)
  if 2 ≤ trades.length then
    let mean_r := mean_r_of r_multiples
    let std_r : ℝ := Real.sqrt ((sample_variance r_multiples : ℚ) : ℝ)
    let days0 := elapsed_days trades
    let trading_days := if days0 = 0 then 1 else days0
    let trades_per_year : ℚ :=
      (trades.length : ℚ) / (trading_days : ℚ) * 252
    if 0 < std_r then
      ((mean_r : ℚ) : ℝ) / std_r * Real.sqrt ((trades_per_year : ℚ) : ℝ)
    else 0
  else 0

/-- The five per-stage rejection counters summed. -/
def sumRejects (s : FilterStats) : ℕ :=
  s.cooldown_blocked + s.session_blocked + s.no_entry_bar + s.no_context +
    s.not_confirmed

/-- The equity-chain property of a trade list: starting from prev, every
trade carries pnl = risk * r_multiple and equity = previous equity plus
its own pnl. -/
def pnl_equity_chain (risk : ℚ) : ℚ → List Trade → Prop
  | _, [] => True
  | prev, t :: rest =>
    t.pnl = risk * t.r_multiple ∧ t.equity = prev + t.pnl ∧
    pnl_equity_chain risk t.equity rest

/-- The equity recorded on the last trade of the list (the default when
the list is empty). -/
def last_equity (dflt : ℚ) (trades : List Trade) : ℚ :=
  ((trades.getLast?).map Trade.equity).getD dflt

/-- Spec-side win rate: wins / total trades, a win being r_multiple
strictly positive (zero counts as a loss). -/
def win_rate_spec (rs : List ℚ) : ℚ :=
  ((rs.countP (fun r => decide (0 < r)) : ℕ) : ℚ) / ((rs.length : ℕ) : ℚ)

/-- Spec-side avg_win_R: the mean of the positive r_multiples, 0 when
there are none. -/
def avg_win_spec (rs : List ℚ) : ℚ :=
  let ps := rs.filter (fun r => decide (0 < r))
  if ps = [] then 0 else ps.sum / ((ps.length : ℕ) : ℚ)

/-- avg_loss_R exactly as the claim words it: the mean of the absolute
values of the strictly negative r_multiples, 0 when there are none. -/
def avg_loss_claimed (rs : List ℚ) : ℚ :=
  let ns := (rs.filter (fun r => decide (r < 0))).map (fun r => |r|)
  if ns = [] then 0 else ns.sum / ((ns.length : ℕ) : ℚ)

/-- The expectancy formula as the claim words it. -/
def expectancy_claimed (rs : List ℚ) : ℚ :=
  win_rate_spec rs * avg_win_spec rs - (1 - win_rate_spec rs) * avg_loss_claimed rs

/-- avg_loss_R as the code actually computes it: the summed absolute
value of the strictly negative r_multiples divided by the number of
non-winning trades (r_multiple not strictly positive), 0 when every
trade is a win. -/
def avg_loss_amended (rs : List ℚ) : ℚ :=
  let nonwins := rs.countP (fun r => !(decide (0 < r)))
  if nonwins = 0 then 0
  else |(rs.filter (fun r => decide (r < 0))).sum| / ((nonwins : ℕ) : ℚ)

/-- The expectancy formula with the corrected avg_loss_R. -/
def expectancy_amended (rs : List ℚ) : ℚ :=
  win_rate_spec rs * avg_win_spec rs - (1 - win_rate_spec rs) * avg_loss_amended rs

/-- Spec-side annualization factor: (trade_count / elapsed_days) * 252,
elapsed days floored at 1. -/
def annualization_spec (trades : List Trade) : ℚ :=
  ((trades.length : ℕ) : ℚ) / ((max (elapsed_days trades) 1 : ℕ) : ℚ) * 252

/-- Spec-side sharpe formula for the computed branch: mean over sample
standard deviation, times the square root of the annualization factor. -/
noncomputable def sharpe_spec (trades : List Trade) : ℝ :=
  ((mean_r_of (trades.map (·.r_multiple)) : ℚ) : ℝ) /
    Real.sqrt ((sample_variance (trades.map (·.r_multiple)) : ℚ) : ℝ) *
    Real.sqrt ((annualization_spec trades : ℚ) : ℝ)

/-- The GARCHRegimeRiskCalculator with its default constructor values. -/
def gdefault : GARCHRegimeRiskCalculator := {}

/-- A simple concrete risk calculator used by concrete scenarios. -/
def rc_simple : RiskCalcFn := fun e _ _ => (e - 200, e + 400)

/-- A configuration with a negative cooldown (12h replaced by -1h). -/
def cfg_neg_cooldown : BacktestConfig := ⟨0, 100000, 100, 5, -1, ["Asian"]⟩

/-- A configuration whose end_date lies before its start_date and whose
cooldown is negative. -/
def cfg_bad : BacktestConfig := ⟨10, 0, 100, 5, -1, ["Asian"]⟩

/-- A signal at minute 100 (UTC hour 1, Asian session). -/
def sig_t100 : SignalEvent := ⟨100, "LONG"⟩

/-- A bar whose range crosses both a stop at 50 and a target at 200. -/
def wit_bar : PriceBar := ⟨1, 100, 300, 0, 100⟩

/-- A configuration allowing the London session with a 12h cooldown. -/
def cfg_frame : BacktestConfig := ⟨0, 100000, 100, 5, 12, ["London"]⟩

/-- A signal at minute 500 (UTC hour 8, London session). -/
def sig_frame : SignalEvent := ⟨500, "LONG"⟩

/-- The only price bar of the frame scenario: it opens right after the
signal and is the last bar, so the simulation scans no future bar. -/
def bar_frame : PriceBar := ⟨501, 100, 100, 100, 100⟩

/-- Context with a garch snapshot carrying vol = 30 at time 0. -/
def ctx_frame : ContextData := [("garch", [⟨0, some 30⟩])]

/-- A trade with the given r_multiple and equity and neutral other
fields, for feeding PerformanceAnalytics.calculate_metrics directly. -/
def trade_r (r eq : ℚ) : Trade :=
  ⟨0, 0, "London", "LONG", 0, 0, 0, "SL", 0, 0, 0, r, eq, 30⟩

/-- Two trades, one with r_multiple exactly zero and one full loss. -/
def cex_trades : List Trade := [trade_r 0 100, trade_r (-1) 95]
/-- Context whose garch snapshot lacks the vol field. -/
def ctx_novol : ContextData := [("garch", [⟨0, none⟩])]


/-- A risk calculator returning constant stop -100 and target 500. -/
def rc_const : RiskCalcFn := fun _ _ _ => (-100, 500)

/-- A bar after the frame-scenario entry bar whose low crosses a stop
at -100 without reaching a target at 500. -/
def bar_crash : PriceBar := ⟨502, 100, 100, -150, 100⟩


/-- Two trades with identical r_multiples (sample variance zero). -/
def sharpe_var0 : List Trade := [trade_r 1 100, trade_r 1 105]

/-- Two trades with distinct r_multiples (sample variance two). -/
def sharpe_var2 : List Trade := [trade_r 1 100, trade_r 3 110]


/-- C9: session classification is total over all timestamps (every
timestamp maps to one of the four session names) and partitions the 24
UTC hours with no gaps or overlaps: hours [0,8) map to Asian, [8,13) to
London, [13,22) to New_York, and the remaining hours to Off_Hours, each
hour mapping to exactly one session name. -/
theorem session_classification_partitions_hours :
    (∀ t : ℕ, get_session t ∈
      (["Asian", "London", "New_York", "Off_Hours"] : List String)) ∧
    (∀ h : Fin 24,
      (["Asian", "London", "New_York", "Off_Hours"] : List String).count
        (get_session_hour h) = 1 ∧
      get_session_hour h =
        (if (h : ℕ) < 8 then "Asian"
         else if (h : ℕ) < 13 then "London"
         else if (h : ℕ) < 22 then "New_York"
         else "Off_Hours")) := by
  constructor
  · intro t
    have h24 : t / 60 % 24 < 24 := Nat.mod_lt _ (by norm_num)
    have hall : ∀ h : Fin 24, get_session_hour h ∈
        (["Asian", "London", "New_York", "Off_Hours"] : List String) := by decide
    exact hall ⟨t / 60 % 24, h24⟩
  · decide

/-- C7: calculate_stops classifies volatility into LOW below the low
threshold, MEDIUM at or above the low threshold and below the high
threshold, and HIGH otherwise (half-open boundaries), selects the
per-regime stop distance, sets the target distance to the stop distance
times the reward:risk ratio, and returns stop = entry - distance,
target = entry + target distance for LONG with inverted signs for
SHORT; direction matching is case-insensitive with BUY a synonym of
LONG and SELL of SHORT. -/
theorem calculate_stops_regime_and_directions
    (c : GARCHRegimeRiskCalculator) (entry_price garch_vol : ℚ) (d : String)
    (hlh : c.low_vol_threshold ≤ c.high_vol_threshold) :
    (garch_vol < c.low_vol_threshold →
      get_volatility_regime c garch_vol = "LOW") ∧
    (c.low_vol_threshold ≤ garch_vol → garch_vol < c.high_vol_threshold →
      get_volatility_regime c garch_vol = "MEDIUM") ∧
    (c.high_vol_threshold ≤ garch_vol →
      get_volatility_regime c garch_vol = "HIGH") ∧
    (sl_distance_of c garch_vol =
      (if garch_vol < c.low_vol_threshold then c.sl_low
       else if garch_vol < c.high_vol_threshold then c.sl_med
       else c.sl_high)) ∧
    (tp_distance_of c garch_vol = sl_distance_of c garch_vol * c.rr_ratio) ∧
    (is_long_direction d = true →
      calculate_stops c entry_price d garch_vol =
        (entry_price - sl_distance_of c garch_vol,
         entry_price + tp_distance_of c garch_vol)) ∧
    (is_long_direction d = false →
      calculate_stops c entry_price d garch_vol =
        (entry_price + sl_distance_of c garch_vol,
         entry_price - tp_distance_of c garch_vol)) ∧
    ((str_upper d = "LONG" ∨ str_upper d = "BUY") →
      is_long_direction d = true) ∧
    ((str_upper d = "SHORT" ∨ str_upper d = "SELL") →
      is_long_direction d = false) := by
  refine ⟨?_, ?_, ?_, ?_, ?_, ?_, ?_, ?_, ?_⟩
  · intro h; simp [get_volatility_regime, h]
  · intro h1 h2; simp [get_volatility_regime, not_lt.mpr h1, h2]
  · intro h
    have h1 : ¬ garch_vol < c.low_vol_threshold := not_lt.mpr (le_trans hlh h)
    simp [get_volatility_regime, h1, not_lt.mpr h]
  · simp only [sl_distance_of, get_volatility_regime]
    split_ifs <;> simp_all
  · rfl
  · intro h; simp [calculate_stops, h]
  · intro h; simp [calculate_stops, h]
  · rintro (h | h) <;> simp [is_long_direction, h]
  · rintro (h | h) <;> simp [is_long_direction, h]
/-- Any per-bar outcome is the stop record or the target record. -/
lemma barOutcome_cases (is_long : Bool) (entry_price sl_price tp_price : ℚ)
    (bar : PriceBar) (res : TradeResult)
    (h : barOutcome is_long entry_price sl_price tp_price bar = some res) :
    res = ⟨"SL", bar.time, sl_price, -1⟩ ∨
    res = ⟨"TP", bar.time, tp_price,
      |tp_price - entry_price| / |sl_price - entry_price|⟩ := by
  simp only [barOutcome] at h
  split_ifs at h <;> simp_all

/-- A resolved scan comes from some bar of the scanned list. -/
lemma scanBars_mem (is_long : Bool) (entry_price sl_price tp_price : ℚ) :
    ∀ (l : List PriceBar) (res : TradeResult),
      scanBars is_long entry_price sl_price tp_price l = some res →
      ∃ b ∈ l, barOutcome is_long entry_price sl_price tp_price b = some res := by
  intro l
  induction l with
  | nil => intro res h; simp [scanBars] at h
  | cons b rest ih =>
    intro res h
    unfold scanBars at h
    cases hb : barOutcome is_long entry_price sl_price tp_price b with
    | some r =>
      rw [hb] at h
      exact ⟨b, by simp, by rw [hb]; exact h⟩
    | none =>
      rw [hb] at h
      obtain ⟨b', hb', h'⟩ := ih res h
      exact ⟨b', by simp [hb'], h'⟩

/-- C4: if a bar crosses both the stop and the target level, the
outcome is a stop exit at the stop price with r_multiple exactly -1
(for longs and, mirrored, for shorts); every stop resolution of the
simulator carries exit price = stop price and r_multiple = -1, and
every target resolution carries exit price = target price and
r_multiple = |target - entry| / |stop - entry|, which is nonnegative. -/
theorem simulate_trade_tie_break_and_exit_values
    (price_data : List PriceBar) (entry_time : ℕ) (entry_price : ℚ)
    (d : String) (sl_price tp_price : ℚ) (max_bars : ℕ) (bar : PriceBar)
    (res : TradeResult) :
    (bar.low ≤ sl_price → tp_price ≤ bar.high →
      barOutcome true entry_price sl_price tp_price bar =
        some ⟨"SL", bar.time, sl_price, -1⟩) ∧
    (sl_price ≤ bar.high → bar.low ≤ tp_price →
      barOutcome false entry_price sl_price tp_price bar =
        some ⟨"SL", bar.time, sl_price, -1⟩) ∧
    (simulate_trade price_data entry_time entry_price d sl_price tp_price
        max_bars = some res →
      (res.exit_type = "SL" ∧ res.exit_price = sl_price ∧
        res.r_multiple = -1) ∨
      (res.exit_type = "TP" ∧ res.exit_price = tp_price ∧
        res.r_multiple = |tp_price - entry_price| / |sl_price - entry_price| ∧
        0 ≤ res.r_multiple)) := by
  refine ⟨?_, ?_, ?_⟩
  · intro h1 h2; simp [barOutcome, h1, h2]
  · intro h1 h2; simp [barOutcome, h1, h2]
  · intro h
    unfold simulate_trade at h
    obtain ⟨b, _, hb⟩ := scanBars_mem _ _ _ _ _ _ h
    rcases barOutcome_cases _ _ _ _ _ _ hb with hres | hres
    · left; rw [hres]; exact ⟨rfl, rfl, rfl⟩
    · right
      rw [hres]
      exact ⟨rfl, rfl, rfl, div_nonneg (abs_nonneg _) (abs_nonneg _)⟩
/-- Witness for C7 at the spec's concrete scenario B: thresholds 25/35,
distances 200/250/350, rr 2.0, volatility 20, direction Buy, entry 100:
regime LOW, long entry, stop -100, target 500. -/
theorem calculate_stops_witness :
    ((25 : ℚ) ≤ 35 ∧ (20 : ℚ) < 25 ∧ str_upper "Buy" = "BUY") ∧
    get_volatility_regime gdefault 20 = "LOW" ∧
    is_long_direction "Buy" = true ∧
    calculate_stops gdefault 100 "Buy" 20 = (-100, 500) := by
  have H := calculate_stops_regime_and_directions gdefault 100 20 "Buy" (by decide)
  have hlong : is_long_direction "Buy" = true :=
    H.2.2.2.2.2.2.2.1 (Or.inr (by decide))
  refine ⟨⟨by decide, by decide, by decide⟩, H.1 (by decide), hlong, ?_⟩
  have hst := H.2.2.2.2.2.1 hlong
  rw [hst]
  have hsl : sl_distance_of gdefault 20 = 200 := by decide
  have htp : tp_distance_of gdefault 20 = 400 := by
    rw [tp_distance_of, hsl]; norm_num [gdefault]
  rw [hsl, htp]
  norm_num

/-- Witness for C4: a bar with low 0 and high 300 crosses both a stop
at 50 and a target at 200 on a long trade; the simulated outcome is the
stop exit at price 50 with r_multiple -1. -/
theorem simulate_trade_tie_break_witness :
    (wit_bar.low ≤ (50 : ℚ) ∧ (200 : ℚ) ≤ wit_bar.high ∧
      simulate_trade [wit_bar] 0 100 "LONG" 50 200 10080 =
        some ⟨"SL", 1, 50, -1⟩) ∧
    barOutcome true 100 50 200 wit_bar = some ⟨"SL", wit_bar.time, 50, -1⟩ ∧
    (⟨"SL", 1, 50, -1⟩ : TradeResult).exit_price = 50 ∧
    (⟨"SL", 1, 50, -1⟩ : TradeResult).r_multiple = -1 := by
  have H := simulate_trade_tie_break_and_exit_values [wit_bar] 0 100 "LONG"
    50 200 10080 wit_bar ⟨"SL", 1, 50, -1⟩
  refine ⟨⟨by decide, by decide, by decide⟩,
    H.1 (by decide) (by decide), ?_⟩
  rcases H.2.2 (by decide) with ⟨_, hp, hr⟩ | ⟨hty, _⟩
  · exact ⟨hp, hr⟩
  · exact absurd hty (by decide)
/-- Counterexample to C2: under a configuration with a negative
cooldown, run_backtest does not fail and does not refuse to process
signals — it processes the one in-range signal (total_signals becomes
1) and returns a normal result. -/
theorem config_validation_cex :
    cfg_neg_cooldown.cooldown_hours < 0 ∧
    (run_backtest cfg_neg_cooldown rc_simple none [] []
      [sig_t100]).filter_stats.total_signals = 1 := by
  exact ⟨by decide, by decide⟩

/-- C2 amended: run_backtest performs no configuration validation and
never aborts. With end_date before start_date the date filter keeps no
signal, so the run processes zero signals and returns an empty trade
list as a normal result; with a negative cooldown the run proceeds and
the cooldown gate never blocks a signal at or after the previous trade
time. -/
theorem no_config_validation (cfg : BacktestConfig) (rc : RiskCalcFn)
    (confirmation : Option ConfirmFn) (price_data : List PriceBar)
    (context_data : ContextData) (signals : List SignalEvent) (lt t : ℕ)
    (hend : cfg.end_date < cfg.start_date) (hneg : cfg.cooldown_hours < 0)
    (hle : lt ≤ t) :
    (run_backtest cfg rc confirmation price_data context_data
      signals).filter_stats.total_signals = 0 ∧
    (run_backtest cfg rc confirmation price_data context_data
      signals).trades = [] ∧
    cooldownHit cfg (some lt) t = false := by
  have hfil : filteredSignals cfg signals = [] := by
    apply List.filter_eq_nil_iff.mpr
    intro s _
    simp only [Bool.and_eq_true, decide_eq_true_eq, not_and]
    intro hs hs'
    omega
  refine ⟨?_, ?_, ?_⟩
  · rw [run_backtest, hfil]; rfl
  · rw [run_backtest, hfil]; rfl
  · simp only [cooldownHit, decide_eq_false_iff_not, not_lt]
    have h60 : 60 * cfg.cooldown_hours ≤ -60 := by omega
    have : (0 : ℤ) ≤ (t : ℤ) - (lt : ℤ) := by
      have := hle
      omega
    omega

/-- Witness for the amended C2 at a concrete bad configuration
(start 10, end 0, cooldown -1). -/
theorem no_config_validation_witness :
    (cfg_bad.end_date < cfg_bad.start_date ∧ cfg_bad.cooldown_hours < 0 ∧
      (3 : ℕ) ≤ 5) ∧
    ((run_backtest cfg_bad rc_simple none [] []
        [sig_t100]).filter_stats.total_signals = 0 ∧
      (run_backtest cfg_bad rc_simple none [] [] [sig_t100]).trades = [] ∧
      cooldownHit cfg_bad (some 3) 5 = false) :=
  ⟨⟨by decide, by decide, by decide⟩,
    no_config_validation cfg_bad rc_simple none [] [] [sig_t100] 3 5
      (by decide) (by decide) (by decide)⟩
/-- C10: when the garch source has a snapshot at or before the signal
time but that snapshot lacks a vol field, the signal is not rejected at
the context gate (the no_context counter is untouched) and any trade
recorded for it uses the default volatility reading 30 both for the
stop/target calculation and for the recorded volatility at entry. -/
theorem missing_vol_field_defaults_to_30 (cfg : BacktestConfig)
    (rc : RiskCalcFn) (confirmation : Option ConfirmFn)
    (price_data : List PriceBar) (context_data : ContextData)
    (st : EngineState) (sig : SignalEvent) (snap : ContextSnapshot)
    (hsnap : garchContext (fuseContext context_data sig.time) = some snap)
    (hvol : snap.vol = none) :
    (processSignal cfg rc confirmation price_data context_data st
        sig).filter_stats.no_context = st.filter_stats.no_context ∧
    (∀ tr ∈ (processSignal cfg rc confirmation price_data context_data st
        sig).trades,
      tr ∈ st.trades ∨
        (tr.garch_vol = 30 ∧
          tr.sl_price = (rc tr.entry_price tr.direction 30).1 ∧
          tr.tp_price = (rc tr.entry_price tr.direction 30).2)) := by
  unfold processSignal
  simp only [hsnap, hvol, Option.getD_none]
  split
  · exact ⟨rfl, fun tr htr => Or.inl htr⟩
  · split
    · exact ⟨rfl, fun tr htr => Or.inl htr⟩
    · split
      · exact ⟨rfl, fun tr htr => Or.inl htr⟩
      · split
        · exact ⟨rfl, fun tr htr => Or.inl htr⟩
        · split
          · exact ⟨rfl, fun tr htr => Or.inl htr⟩
          · refine ⟨rfl, fun tr htr => ?_⟩
            rcases List.mem_append.mp htr with h | h
            · exact Or.inl h
            · rcases List.mem_singleton.mp h with rfl
              exact Or.inr ⟨rfl, rfl, rfl⟩

/-- Witness for C10: a garch series whose snapshot at the signal time
carries no vol field; the context gate does not fire and any recorded
trade carries the default volatility 30. -/
theorem missing_vol_witness :
    (garchContext (fuseContext ctx_novol sig_frame.time) =
        some (⟨0, none⟩ : ContextSnapshot) ∧
      (⟨0, none⟩ : ContextSnapshot).vol = none) ∧
    ((processSignal cfg_frame rc_simple none [bar_frame] ctx_novol
        (initState cfg_frame) sig_frame).filter_stats.no_context =
      (initState cfg_frame).filter_stats.no_context ∧
      (∀ tr ∈ (processSignal cfg_frame rc_simple none [bar_frame] ctx_novol
          (initState cfg_frame) sig_frame).trades,
        tr ∈ (initState cfg_frame).trades ∨
          (tr.garch_vol = 30 ∧
            tr.sl_price = (rc_simple tr.entry_price tr.direction 30).1 ∧
            tr.tp_price = (rc_simple tr.entry_price tr.direction 30).2))) :=
  ⟨⟨by decide, rfl⟩,
    missing_vol_field_defaults_to_30 cfg_frame rc_simple none [bar_frame]
      ctx_novol (initState cfg_frame) sig_frame ⟨0, none⟩ (by decide) rfl⟩
/-- C8: a signal that passes the cooldown, session, entry-bar, context
and confirmation gates but whose simulation yields no outcome leaves
the engine state unchanged except for the total_signals counter: no
Trade, no EquityPoint, equity untouched, last_trade_time not advanced. -/
theorem unresolved_simulation_frame (cfg : BacktestConfig) (rc : RiskCalcFn)
    (confirmation : Option ConfirmFn) (price_data : List PriceBar)
    (context_data : ContextData) (st : EngineState) (sig : SignalEvent)
    (entry_bar : PriceBar) (garch_snap : ContextSnapshot)
    (h1 : cooldownHit cfg st.last_trade_time sig.time = false)
    (h2 : get_session sig.time ∈ cfg.allowed_sessions)
    (h3 : price_data.find? (fun b => decide (sig.time < b.time)) = some entry_bar)
    (h4 : garchContext (fuseContext context_data sig.time) = some garch_snap)
    (h5 : confirmRejects confirmation sig (fuseContext context_data sig.time)
      entry_bar.open_price = false)
    (h6 : simulate_trade price_data entry_bar.time entry_bar.open_price
      sig.direction
      (rc entry_bar.open_price sig.direction (garch_snap.vol.getD 30)).1
      (rc entry_bar.open_price sig.direction (garch_snap.vol.getD 30)).2
      10080 = none) :
    processSignal cfg rc confirmation price_data context_data st sig =
      { st with filter_stats :=
        { st.filter_stats with
          total_signals := st.filter_stats.total_signals + 1 } } := by
  unfold processSignal
  simp only [h1, h2, h3, h4, h5, h6, Bool.false_eq_true, if_false,
    not_true_eq_false]

/-- Witness for C8: a London-session signal passing every gate whose
simulation scans no future bar and therefore yields no outcome; the
step only bumps total_signals. -/
theorem unresolved_simulation_frame_witness :
    (cooldownHit cfg_frame (initState cfg_frame).last_trade_time
        sig_frame.time = false ∧
      get_session sig_frame.time ∈ cfg_frame.allowed_sessions ∧
      [bar_frame].find? (fun b => decide (sig_frame.time < b.time)) =
        some bar_frame ∧
      garchContext (fuseContext ctx_frame sig_frame.time) =
        some (⟨0, some 30⟩ : ContextSnapshot) ∧
      confirmRejects none sig_frame (fuseContext ctx_frame sig_frame.time)
        bar_frame.open_price = false ∧
      simulate_trade [bar_frame] bar_frame.time bar_frame.open_price
        sig_frame.direction
        (rc_simple bar_frame.open_price sig_frame.direction
          ((⟨0, some 30⟩ : ContextSnapshot).vol.getD 30)).1
        (rc_simple bar_frame.open_price sig_frame.direction
          ((⟨0, some 30⟩ : ContextSnapshot).vol.getD 30)).2 10080 = none) ∧
    processSignal cfg_frame rc_simple none [bar_frame] ctx_frame
        (initState cfg_frame) sig_frame =
      { initState cfg_frame with filter_stats :=
        { (initState cfg_frame).filter_stats with
          total_signals :=
            (initState cfg_frame).filter_stats.total_signals + 1 } } :=
  ⟨⟨by decide, by decide, by decide, by decide, by decide, by decide⟩,
    unresolved_simulation_frame cfg_frame rc_simple none [bar_frame]
      ctx_frame (initState cfg_frame) sig_frame bar_frame ⟨0, some 30⟩
      (by decide) (by decide) (by decide) (by decide) (by decide) (by decide)⟩
/-- The executed branch of the per-signal loop, in explicit form: one
Trade and one EquityPoint appended, equity bumped by pnl, cooldown
anchor set to the signal time, trades_executed and total_signals
incremented. -/
lemma processSignal_executed (cfg : BacktestConfig) (rc : RiskCalcFn)
    (confirmation : Option ConfirmFn) (price_data : List PriceBar)
    (context_data : ContextData) (st : EngineState) (sig : SignalEvent)
    (entry_bar : PriceBar) (garch_snap : ContextSnapshot) (res : TradeResult)
    (h1 : cooldownHit cfg st.last_trade_time sig.time = false)
    (h2 : get_session sig.time ∈ cfg.allowed_sessions)
    (h3 : price_data.find? (fun b => decide (sig.time < b.time)) = some entry_bar)
    (h4 : garchContext (fuseContext context_data sig.time) = some garch_snap)
    (h5 : confirmRejects confirmation sig (fuseContext context_data sig.time)
      entry_bar.open_price = false)
    (h6 : simulate_trade price_data entry_bar.time entry_bar.open_price
      sig.direction
      (rc entry_bar.open_price sig.direction (garch_snap.vol.getD 30)).1
      (rc entry_bar.open_price sig.direction (garch_snap.vol.getD 30)).2
      10080 = some res) :
    processSignal cfg rc confirmation price_data context_data st sig =
      { st with
        equity := st.equity + cfg.risk_per_trade * res.r_multiple
        trades := st.trades ++ [⟨sig.time, entry_bar.time,
          get_session sig.time, sig.direction, entry_bar.open_price,
          (rc entry_bar.open_price sig.direction (garch_snap.vol.getD 30)).1,
          (rc entry_bar.open_price sig.direction (garch_snap.vol.getD 30)).2,
          res.exit_type, res.exit_time, res.exit_price,
          cfg.risk_per_trade * res.r_multiple, res.r_multiple,
          st.equity + cfg.risk_per_trade * res.r_multiple,
          garch_snap.vol.getD 30⟩]
        equity_curve := st.equity_curve ++
          [(sig.time, st.equity + cfg.risk_per_trade * res.r_multiple)]
        last_trade_time := some sig.time
        filter_stats := { st.filter_stats with
          total_signals := st.filter_stats.total_signals + 1
          trades_executed := st.filter_stats.trades_executed + 1 } } := by
  unfold processSignal
  simp only [h1, h2, h3, h4, h5, h6, Bool.false_eq_true, if_false,
    not_true_eq_false]

/-- Every step either leaves trades, equity and the equity curve
untouched, or appends exactly one trade and one equity point with
pnl = risk * r_multiple and chained equity. -/
lemma processSignal_content_step (cfg : BacktestConfig) (rc : RiskCalcFn)
    (confirmation : Option ConfirmFn) (price_data : List PriceBar)
    (context_data : ContextData) (st : EngineState) (sig : SignalEvent) :
    ((processSignal cfg rc confirmation price_data context_data st sig).trades
        = st.trades ∧
      (processSignal cfg rc confirmation price_data context_data st
        sig).equity = st.equity ∧
      (processSignal cfg rc confirmation price_data context_data st
        sig).equity_curve = st.equity_curve) ∨
    (∃ tr : Trade,
      (processSignal cfg rc confirmation price_data context_data st
        sig).trades = st.trades ++ [tr] ∧
      tr.pnl = cfg.risk_per_trade * tr.r_multiple ∧
      tr.equity = st.equity + tr.pnl ∧
      (processSignal cfg rc confirmation price_data context_data st
        sig).equity = tr.equity ∧
      (processSignal cfg rc confirmation price_data context_data st
        sig).equity_curve = st.equity_curve ++ [(sig.time, tr.equity)]) := by
  unfold processSignal
  simp only []
  split
  · exact Or.inl ⟨rfl, rfl, rfl⟩
  · split
    · exact Or.inl ⟨rfl, rfl, rfl⟩
    · split
      · exact Or.inl ⟨rfl, rfl, rfl⟩
      · split
        · exact Or.inl ⟨rfl, rfl, rfl⟩
        · split
          · exact Or.inl ⟨rfl, rfl, rfl⟩
          · split
            · exact Or.inl ⟨rfl, rfl, rfl⟩
            · exact Or.inr ⟨_, rfl, rfl, rfl, rfl, rfl⟩
/-- The last recorded equity of an appended trade list is that of the
appended trade. -/
lemma last_equity_append (dflt : ℚ) (ts : List Trade) (tr : Trade) :
    last_equity dflt (ts ++ [tr]) = tr.equity := by
  simp [last_equity, List.getLast?_concat]

/-- Shifting the anchor of last_equity across a cons cell. -/
lemma last_equity_cons (dflt : ℚ) (t : Trade) (ts : List Trade) :
    last_equity dflt (t :: ts) = last_equity t.equity ts := by
  cases ts with
  | nil => simp [last_equity]
  | cons t' ts' =>
    obtain ⟨x, hx⟩ : ∃ x, (t' :: ts').getLast? = some x :=
      ⟨(t' :: ts').getLast (by simp), List.getLast?_eq_getLast _ (by simp)⟩
    simp [last_equity, List.getLast?_cons_cons, hx]

/-- Appending a trade whose pnl and equity extend the chain keeps the
chain property. -/
lemma pnl_equity_chain_append (risk : ℚ) (init : ℚ) (ts : List Trade)
    (tr : Trade) (hc : pnl_equity_chain risk init ts)
    (hp : tr.pnl = risk * tr.r_multiple)
    (he : tr.equity = last_equity init ts + tr.pnl) :
    pnl_equity_chain risk init (ts ++ [tr]) := by
  induction ts generalizing init with
  | nil =>
    refine ⟨hp, ?_, trivial⟩
    simpa [last_equity] using he
  | cons t ts' ih =>
    obtain ⟨h1, h2, h3⟩ := hc
    exact ⟨h1, h2, ih _ h3 (by rwa [last_equity_cons] at he)⟩

/-- Fold invariant for the run content: the chain property, the equity
anchor and the equity-curve length are preserved by the signal loop. -/
lemma run_content_invariant (cfg : BacktestConfig) (rc : RiskCalcFn)
    (confirmation : Option ConfirmFn) (price_data : List PriceBar)
    (context_data : ContextData) :
    ∀ (sigs : List SignalEvent) (st : EngineState),
      pnl_equity_chain cfg.risk_per_trade cfg.initial_capital st.trades →
      st.equity = last_equity cfg.initial_capital st.trades →
      st.equity_curve.length = st.trades.length + 1 →
      pnl_equity_chain cfg.risk_per_trade cfg.initial_capital
        (sigs.foldl (processSignal cfg rc confirmation price_data
          context_data) st).trades ∧
      (sigs.foldl (processSignal cfg rc confirmation price_data
        context_data) st).equity =
        last_equity cfg.initial_capital
          (sigs.foldl (processSignal cfg rc confirmation price_data
            context_data) st).trades ∧
      (sigs.foldl (processSignal cfg rc confirmation price_data
        context_data) st).equity_curve.length =
        (sigs.foldl (processSignal cfg rc confirmation price_data
          context_data) st).trades.length + 1 := by
  intro sigs
  induction sigs with
  | nil => intro st h1 h2 h3; exact ⟨h1, h2, h3⟩
  | cons sig rest ih =>
    intro st h1 h2 h3
    simp only [List.foldl_cons]
    rcases processSignal_content_step cfg rc confirmation price_data
        context_data st sig with
      ⟨ht, he, hc⟩ | ⟨tr, ht, hp, heq, he, hc⟩
    · exact ih _ (ht ▸ h1) (by rw [he, ht]; exact h2)
        (by rw [hc, ht]; exact h3)
    · refine ih _ ?_ ?_ ?_
      · rw [ht]
        exact pnl_equity_chain_append _ _ _ _ h1 hp (by rw [heq, h2])
      · rw [he, ht, last_equity_append]
      · rw [hc, ht]
        simp [h3]
/-- C5: in every run, each executed trade carries pnl = configured risk
amount times its r_multiple and equity chained from the previous trade
(initial capital for the first), the equity curve holds exactly one
point per trade plus the seed point; and each executed signal appends
exactly one Trade and one EquityPoint, bumps equity by the pnl and sets
last_trade_time to the signal time. -/
theorem executed_trades_pnl_and_equity (cfg : BacktestConfig)
    (rc : RiskCalcFn) (confirmation : Option ConfirmFn)
    (price_data : List PriceBar) (context_data : ContextData) :
    (∀ signals : List SignalEvent,
      pnl_equity_chain cfg.risk_per_trade cfg.initial_capital
        (run_backtest cfg rc confirmation price_data context_data
          signals).trades ∧
      (run_backtest cfg rc confirmation price_data context_data
        signals).equity_curve.length =
        (run_backtest cfg rc confirmation price_data context_data
          signals).trades.length + 1) ∧
    (∀ (st : EngineState) (sig : SignalEvent) (entry_bar : PriceBar)
        (garch_snap : ContextSnapshot) (res : TradeResult),
      cooldownHit cfg st.last_trade_time sig.time = false →
      get_session sig.time ∈ cfg.allowed_sessions →
      price_data.find? (fun b => decide (sig.time < b.time)) = some entry_bar →
      garchContext (fuseContext context_data sig.time) = some garch_snap →
      confirmRejects confirmation sig (fuseContext context_data sig.time)
        entry_bar.open_price = false →
      simulate_trade price_data entry_bar.time entry_bar.open_price
        sig.direction
        (rc entry_bar.open_price sig.direction (garch_snap.vol.getD 30)).1
        (rc entry_bar.open_price sig.direction (garch_snap.vol.getD 30)).2
        10080 = some res →
      processSignal cfg rc confirmation price_data context_data st sig =
        { st with
          equity := st.equity + cfg.risk_per_trade * res.r_multiple
          trades := st.trades ++ [⟨sig.time, entry_bar.time,
            get_session sig.time, sig.direction, entry_bar.open_price,
            (rc entry_bar.open_price sig.direction (garch_snap.vol.getD 30)).1,
            (rc entry_bar.open_price sig.direction (garch_snap.vol.getD 30)).2,
            res.exit_type, res.exit_time, res.exit_price,
            cfg.risk_per_trade * res.r_multiple, res.r_multiple,
            st.equity + cfg.risk_per_trade * res.r_multiple,
            garch_snap.vol.getD 30⟩]
          equity_curve := st.equity_curve ++
            [(sig.time, st.equity + cfg.risk_per_trade * res.r_multiple)]
          last_trade_time := some sig.time
          filter_stats := { st.filter_stats with
            total_signals := st.filter_stats.total_signals + 1
            trades_executed := st.filter_stats.trades_executed + 1 } }) := by
  constructor
  · intro signals
    have h := run_content_invariant cfg rc confirmation price_data
      context_data (filteredSignals cfg signals) (initState cfg)
      (by simp [initState, pnl_equity_chain])
      (by simp [initState, last_equity])
      (by simp [initState])
    exact ⟨h.1, h.2.2⟩
  · intro st sig entry_bar garch_snap res h1 h2 h3 h4 h5 h6
    exact processSignal_executed cfg rc confirmation price_data
      context_data st sig entry_bar garch_snap res h1 h2 h3 h4 h5 h6
/-- Witness for C5: a concrete executed signal (London session, stop
crossed on the bar after entry) appends exactly one Trade and one
EquityPoint with pnl = risk * r_multiple. -/
theorem executed_trades_witness :
    (cooldownHit cfg_frame (initState cfg_frame).last_trade_time
        sig_frame.time = false ∧
      get_session sig_frame.time ∈ cfg_frame.allowed_sessions ∧
      [bar_frame, bar_crash].find?
        (fun b => decide (sig_frame.time < b.time)) = some bar_frame ∧
      garchContext (fuseContext ctx_frame sig_frame.time) =
        some (⟨0, some 30⟩ : ContextSnapshot) ∧
      confirmRejects none sig_frame (fuseContext ctx_frame sig_frame.time)
        bar_frame.open_price = false ∧
      simulate_trade [bar_frame, bar_crash] bar_frame.time
        bar_frame.open_price sig_frame.direction
        (rc_const bar_frame.open_price sig_frame.direction
          ((⟨0, some 30⟩ : ContextSnapshot).vol.getD 30)).1
        (rc_const bar_frame.open_price sig_frame.direction
          ((⟨0, some 30⟩ : ContextSnapshot).vol.getD 30)).2 10080 =
        some ⟨"SL", 502, -100, -1⟩) ∧
    processSignal cfg_frame rc_const none [bar_frame, bar_crash] ctx_frame
        (initState cfg_frame) sig_frame =
      { initState cfg_frame with
        equity := (initState cfg_frame).equity +
          cfg_frame.risk_per_trade * (⟨"SL", 502, -100, -1⟩ : TradeResult).r_multiple
        trades := (initState cfg_frame).trades ++ [⟨sig_frame.time,
          bar_frame.time, get_session sig_frame.time, sig_frame.direction,
          bar_frame.open_price,
          (rc_const bar_frame.open_price sig_frame.direction
            ((⟨0, some 30⟩ : ContextSnapshot).vol.getD 30)).1,
          (rc_const bar_frame.open_price sig_frame.direction
            ((⟨0, some 30⟩ : ContextSnapshot).vol.getD 30)).2,
          (⟨"SL", 502, -100, -1⟩ : TradeResult).exit_type,
          (⟨"SL", 502, -100, -1⟩ : TradeResult).exit_time,
          (⟨"SL", 502, -100, -1⟩ : TradeResult).exit_price,
          cfg_frame.risk_per_trade *
            (⟨"SL", 502, -100, -1⟩ : TradeResult).r_multiple,
          (⟨"SL", 502, -100, -1⟩ : TradeResult).r_multiple,
          (initState cfg_frame).equity + cfg_frame.risk_per_trade *
            (⟨"SL", 502, -100, -1⟩ : TradeResult).r_multiple,
          (⟨0, some 30⟩ : ContextSnapshot).vol.getD 30⟩]
        equity_curve := (initState cfg_frame).equity_curve ++
          [(sig_frame.time, (initState cfg_frame).equity +
            cfg_frame.risk_per_trade *
              (⟨"SL", 502, -100, -1⟩ : TradeResult).r_multiple)]
        last_trade_time := some sig_frame.time
        filter_stats := { (initState cfg_frame).filter_stats with
          total_signals :=
            (initState cfg_frame).filter_stats.total_signals + 1
          trades_executed :=
            (initState cfg_frame).filter_stats.trades_executed + 1 } } :=
  ⟨⟨by decide, by decide, by decide, by decide, by decide, by decide⟩,
    (executed_trades_pnl_and_equity cfg_frame rc_const none
        [bar_frame, bar_crash] ctx_frame).2 (initState cfg_frame) sig_frame
      bar_frame ⟨0, some 30⟩ ⟨"SL", 502, -100, -1⟩ (by decide) (by decide)
      (by decide) (by decide) (by decide) (by decide)⟩
/-- Per-step accounting: total_signals rises by one, and exactly one of
the rejection counters, trades_executed, or the unresolved-simulation
bucket absorbs the signal; the trade list grows together with
trades_executed. -/
lemma processSignal_stats_step (cfg : BacktestConfig) (rc : RiskCalcFn)
    (confirmation : Option ConfirmFn) (price_data : List PriceBar)
    (context_data : ContextData) (st : EngineState) (sig : SignalEvent) :
    (processSignal cfg rc confirmation price_data context_data st
      sig).filter_stats.total_signals = st.filter_stats.total_signals + 1 ∧
    sumRejects (processSignal cfg rc confirmation price_data context_data st
        sig).filter_stats +
      (processSignal cfg rc confirmation price_data context_data st
        sig).filter_stats.trades_executed +
      (if isUnresolvedStep cfg rc confirmation price_data context_data st sig
        then 1 else 0) =
      sumRejects st.filter_stats + st.filter_stats.trades_executed + 1 ∧
    (processSignal cfg rc confirmation price_data context_data st
        sig).trades.length + st.filter_stats.trades_executed =
      (processSignal cfg rc confirmation price_data context_data st
        sig).filter_stats.trades_executed + st.trades.length := by
  by_cases hc : cooldownHit cfg st.last_trade_time sig.time = true
  · refine ⟨?_, ?_, ?_⟩ <;>
      simp [processSignal, isUnresolvedStep, hc, sumRejects] <;> omega
  · by_cases hs : get_session sig.time ∈ cfg.allowed_sessions
    · cases hf : price_data.find? (fun b => decide (sig.time < b.time)) with
      | none =>
        refine ⟨?_, ?_, ?_⟩ <;>
          simp [processSignal, isUnresolvedStep, hc, hs, hf, sumRejects] <;>
          omega
      | some entry_bar =>
        cases hg : garchContext (fuseContext context_data sig.time) with
        | none =>
          refine ⟨?_, ?_, ?_⟩ <;>
            simp [processSignal, isUnresolvedStep, hc, hs, hf, hg,
              sumRejects] <;> omega
        | some garch_snap =>
          by_cases hcf : confirmRejects confirmation sig
              (fuseContext context_data sig.time) entry_bar.open_price = true
          · refine ⟨?_, ?_, ?_⟩ <;>
              simp [processSignal, isUnresolvedStep, hc, hs, hf, hg, hcf,
                sumRejects] <;> omega
          · cases hsim : simulate_trade price_data entry_bar.time
                entry_bar.open_price sig.direction
                (rc entry_bar.open_price sig.direction (garch_snap.vol.getD 30)).1
                (rc entry_bar.open_price sig.direction (garch_snap.vol.getD 30)).2
                10080 with
            | none =>
              refine ⟨?_, ?_, ?_⟩ <;>
                simp [processSignal, isUnresolvedStep, hc, hs, hf, hg, hcf,
                  hsim, sumRejects] <;> omega
            | some res =>
              refine ⟨?_, ?_, ?_⟩ <;>
                simp [processSignal, isUnresolvedStep, hc, hs, hf, hg, hcf,
                  hsim, sumRejects, List.length_append] <;> omega
    · refine ⟨?_, ?_, ?_⟩ <;>
        simp [processSignal, isUnresolvedStep, hc, hs, sumRejects] <;> omega
/-- Fold invariant for the run statistics. -/
lemma run_stats_invariant (cfg : BacktestConfig) (rc : RiskCalcFn)
    (confirmation : Option ConfirmFn) (price_data : List PriceBar)
    (context_data : ContextData) :
    ∀ (sigs : List SignalEvent) (st : EngineState),
      (sigs.foldl (processSignal cfg rc confirmation price_data
        context_data) st).filter_stats.total_signals =
        st.filter_stats.total_signals + sigs.length ∧
      sumRejects (sigs.foldl (processSignal cfg rc confirmation price_data
          context_data) st).filter_stats +
        (sigs.foldl (processSignal cfg rc confirmation price_data
          context_data) st).filter_stats.trades_executed +
        countUnresolved cfg rc confirmation price_data context_data st sigs =
        sumRejects st.filter_stats + st.filter_stats.trades_executed +
          sigs.length ∧
      (sigs.foldl (processSignal cfg rc confirmation price_data
          context_data) st).trades.length + st.filter_stats.trades_executed =
        (sigs.foldl (processSignal cfg rc confirmation price_data
          context_data) st).filter_stats.trades_executed + st.trades.length := by
  intro sigs
  induction sigs with
  | nil =>
    intro st
    refine ⟨by simp, ?_, by simp only [List.foldl_nil]; omega⟩
    simp [countUnresolved]
  | cons sig rest ih =>
    intro st
    obtain ⟨s1, s2, s3⟩ :=
      processSignal_stats_step cfg rc confirmation price_data context_data
        st sig
    obtain ⟨i1, i2, i3⟩ :=
      ih (processSignal cfg rc confirmation price_data context_data st sig)
    simp only [List.foldl_cons, countUnresolved, List.length_cons]
    refine ⟨?_, ?_, ?_⟩ <;> omega

/-- C1: after every run, the trade list length equals the
trades_executed counter, and total_signals equals the sum of the five
per-stage rejection counters plus trades_executed plus the number of
signals whose simulation yielded no outcome. -/
theorem trade_count_and_signal_accounting (cfg : BacktestConfig)
    (rc : RiskCalcFn) (confirmation : Option ConfirmFn)
    (price_data : List PriceBar) (context_data : ContextData)
    (signals : List SignalEvent) :
    (run_backtest cfg rc confirmation price_data context_data
        signals).trades.length =
      (run_backtest cfg rc confirmation price_data context_data
        signals).filter_stats.trades_executed ∧
    (run_backtest cfg rc confirmation price_data context_data
        signals).filter_stats.total_signals =
      (run_backtest cfg rc confirmation price_data context_data
          signals).filter_stats.cooldown_blocked +
        (run_backtest cfg rc confirmation price_data context_data
          signals).filter_stats.session_blocked +
        (run_backtest cfg rc confirmation price_data context_data
          signals).filter_stats.no_entry_bar +
        (run_backtest cfg rc confirmation price_data context_data
          signals).filter_stats.no_context +
        (run_backtest cfg rc confirmation price_data context_data
          signals).filter_stats.not_confirmed +
        (run_backtest cfg rc confirmation price_data context_data
          signals).filter_stats.trades_executed +
        countUnresolved cfg rc confirmation price_data context_data
          (initState cfg) (filteredSignals cfg signals) := by
  obtain ⟨i1, i2, i3⟩ :=
    run_stats_invariant cfg rc confirmation price_data context_data
      (filteredSignals cfg signals) (initState cfg)
  have h0a : (initState cfg).filter_stats.total_signals = 0 := rfl
  have h0b : sumRejects (initState cfg).filter_stats = 0 := rfl
  have h0c : (initState cfg).filter_stats.trades_executed = 0 := rfl
  have h0d : (initState cfg).trades.length = 0 := rfl
  simp only [h0a, h0b, h0c, h0d] at i1 i2 i3
  unfold run_backtest
  simp only [sumRejects] at i2
  constructor <;> omega
/-- Counterexample to C3: on the trade list with r_multiples [0, -1]
the code divides the gross loss by the number of non-winning trades
(two: the zero-R trade counts as a loss), giving expectancy -1/2, while
the claimed formula divides by the number of strictly negative trades
(one), giving -1. -/
theorem expectancy_claim_cex :
    (calculate_metrics cex_trades 100).map Metrics.expectancy ≠
      some (expectancy_claimed (cex_trades.map (·.r_multiple))) := by
  have h1 : (calculate_metrics cex_trades 100).map Metrics.expectancy =
      some (-(1 / 2)) := by
    norm_num [calculate_metrics, cex_trades, trade_r, List.countP_cons,
      List.filter]
    exact ⟨_, ⟨by simp, rfl⟩, rfl⟩
  have h2 : expectancy_claimed (cex_trades.map (·.r_multiple)) = -1 := by
    norm_num [expectancy_claimed, win_rate_spec, avg_win_spec,
      avg_loss_claimed, cex_trades, trade_r, List.countP_cons, List.filter]
  rw [h1, h2]
  norm_num

/-- Non-winning trade count equals total minus winning count. -/
lemma countP_nonwins (rs : List ℚ) :
    rs.length - rs.countP (fun r => decide (0 < r)) =
      rs.countP (fun r => !(decide (0 < r))) := by
  have h2 := List.length_eq_countP_add_countP (p := fun r => decide (0 < r))
    (l := rs)
  have h3 : rs.countP (fun a => decide (¬ decide (0 < a) = true)) =
      rs.countP (fun r => !(decide (0 < r))) := by
    apply List.countP_congr
    intro a _
    cases ha : decide (0 < a) <;> simp [ha]
  omega

/-- C3 amended: for every non-empty trade list the code returns
expectancy = win_rate * avg_win_R - (1 - win_rate) * avg_loss_R where
avg_win_R is the mean of the positive r_multiples and avg_loss_R is the
summed absolute value of the strictly negative r_multiples divided by
the number of non-winning trades (r_multiple at most zero), each 0 when
its class is empty. -/
theorem expectancy_formula_amended (trades : List Trade) (cap : ℚ)
    (h : trades ≠ []) :
    (calculate_metrics trades cap).map Metrics.expectancy =
      some (expectancy_amended (trades.map (·.r_multiple))) := by
  have hrs : trades.map (·.r_multiple) ≠ [] := by simpa using h
  simp only [calculate_metrics, if_neg h, Option.map_some']
  congr 1
  have hwin : (trades.map (·.r_multiple)).countP (fun r => decide (0 < r)) =
      ((trades.map (·.r_multiple)).filter (fun r => decide (0 < r))).length :=
    List.countP_eq_length_filter _ _
  have havgw :
      (if 0 < (trades.map (·.r_multiple)).countP (fun r => decide (0 < r))
        then ((trades.map (·.r_multiple)).filter
            (fun r => decide (0 < r))).sum /
          (((trades.map (·.r_multiple)).countP
            (fun r => decide (0 < r)) : ℕ) : ℚ)
        else 0) = avg_win_spec (trades.map (·.r_multiple)) := by
    rw [avg_win_spec, hwin]
    by_cases hps : (trades.map (·.r_multiple)).filter
        (fun r => decide (0 < r)) = []
    · simp [hps]
    · rw [if_pos (List.length_pos.mpr hps), if_neg hps]
  have havgl :
      (if 0 < (trades.map (·.r_multiple)).length -
          (trades.map (·.r_multiple)).countP (fun r => decide (0 < r))
        then |((trades.map (·.r_multiple)).filter
            (fun r => decide (r < 0))).sum| /
          (((trades.map (·.r_multiple)).length -
            (trades.map (·.r_multiple)).countP
              (fun r => decide (0 < r)) : ℕ) : ℚ)
        else 0) = avg_loss_amended (trades.map (·.r_multiple)) := by
    rw [avg_loss_amended, countP_nonwins]
    by_cases hnw : (trades.map (·.r_multiple)).countP
        (fun r => !(decide (0 < r))) = 0
    · simp [hnw]
    · rw [if_pos (Nat.pos_of_ne_zero hnw), if_neg hnw]
  rw [expectancy_amended, win_rate_spec, ← havgw, ← havgl, if_neg hrs]

/-- Witness for the amended C3 at the concrete two-trade list. -/
theorem expectancy_formula_amended_witness :
    cex_trades ≠ [] ∧
    (calculate_metrics cex_trades 100).map Metrics.expectancy =
      some (expectancy_amended (cex_trades.map (·.r_multiple))) :=
  ⟨by decide, expectancy_formula_amended cex_trades 100 (by decide)⟩
/-- The sample variance of at least two observations is nonnegative. -/
lemma sample_variance_nonneg (rs : List ℚ) (h : 2 ≤ rs.length) :
    0 ≤ sample_variance rs := by
  rw [sample_variance]
  apply div_nonneg
  · apply List.sum_nonneg
    intro x hx
    obtain ⟨y, _, rfl⟩ := List.mem_map.mp hx
    exact sq_nonneg _
  · have : (2 : ℚ) ≤ (rs.length : ℚ) := by exact_mod_cast h
    linarith

/-- C6: the sharpe ratio is computed only with at least 2 trades, as
mean over sample standard deviation (divisor n - 1) times the square
root of the annualization factor (trade count / elapsed days) * 252
with elapsed days floored at 1, and is 0 when there are fewer than 2
trades or the standard deviation vanishes. -/
theorem sharpe_ratio_formula (trades : List Trade) :
    (trades.length < 2 → sharpe_ratio trades = 0) ∧
    (2 ≤ trades.length →
      sample_variance (trades.map (·.r_multiple)) = 0 →
      sharpe_ratio trades = 0) ∧
    (2 ≤ trades.length →
      sample_variance (trades.map (·.r_multiple)) ≠ 0 →
      sharpe_ratio trades = sharpe_spec trades) := by
  refine ⟨?_, ?_, ?_⟩
  · intro h
    rw [sharpe_ratio, if_neg (by omega)]
  · intro h hv
    rw [sharpe_ratio, if_pos h]
    simp only [hv]
    rw [if_neg]
    simp [Real.sqrt_zero]
  · intro h hv
    have hpos : 0 < sample_variance (trades.map (·.r_multiple)) :=
      lt_of_le_of_ne (sample_variance_nonneg _ (by simpa using h)) (Ne.symm hv)
    have hstd : (0 : ℝ) <
        Real.sqrt ((sample_variance (trades.map (·.r_multiple)) : ℚ) : ℝ) := by
      rw [Real.sqrt_pos]
      exact_mod_cast hpos
    rw [sharpe_ratio, if_pos h, if_pos hstd, sharpe_spec]
    have hdays : (if elapsed_days trades = 0 then 1 else elapsed_days trades) =
        max (elapsed_days trades) 1 := by
      cases hd : elapsed_days trades with
      | zero => simp
      | succ k => simp [Nat.max_eq_left (Nat.succ_le_succ (Nat.zero_le k))]
    rw [annualization_spec, ← hdays]

/-- Witness for C6 on three concrete trade lists: a singleton (too few
trades), a pair with zero variance, and a pair with positive variance. -/
theorem sharpe_ratio_formula_witness :
    (2 ≤ sharpe_var0.length ∧
      sample_variance (sharpe_var0.map (·.r_multiple)) = 0 ∧
      sharpe_ratio sharpe_var0 = 0) ∧
    (2 ≤ sharpe_var2.length ∧
      sample_variance (sharpe_var2.map (·.r_multiple)) ≠ 0 ∧
      sharpe_ratio sharpe_var2 = sharpe_spec sharpe_var2) ∧
    ([trade_r 1 100].length < 2 ∧ sharpe_ratio [trade_r 1 100] = 0) := by
  have hv0 : sample_variance (sharpe_var0.map (·.r_multiple)) = 0 := by
    norm_num [sharpe_var0, trade_r, sample_variance, mean_r_of]
  have hv2 : sample_variance (sharpe_var2.map (·.r_multiple)) ≠ 0 := by
    norm_num [sharpe_var2, trade_r, sample_variance, mean_r_of]
  exact ⟨⟨by decide, hv0,
      (sharpe_ratio_formula sharpe_var0).2.1 (by decide) hv0⟩,
    ⟨by decide, hv2,
      (sharpe_ratio_formula sharpe_var2).2.2 (by decide) hv2⟩,
    by decide, (sharpe_ratio_formula [trade_r 1 100]).1 (by decide)⟩
